import Mathlib

/-!
go-vlc-thumbnail: a shallow embedding of `thumbnail.go` and `vlc.go`.

* Go strings and byte slices are sequences of bytes; a byte is a natural
  number (the values a real run produces are below 256).
* Go `int` is the 64-bit two's-complement integer: the sum `tf.Time + 1` is
  wrapped by `wrapInt`, so it is `-2^63` for the time `2^63 - 1`.
* An `error` is its text; a nil error is `none`.
* The operating system (working directory, `stat`, the subprocesses, the
  faults of the file system, the clock) is an explicit environment `Env`; the
  package variables, the file system and the trace of system calls are the
  explicit state `State`. Methods with a pointer receiver return the receiver.
* The library code the package relies on is embedded as far as it decides
  what the package does: `bufio.Scanner` over a `bytes.Buffer` with its buffer
  of at most 64 KiB, and `fmt.Errorf` applied to a format without operands.
-/

namespace GoVlcThumbnail

/-! ## Bytes and strings -/

/-- A Go `string`: an immutable sequence of bytes. A byte is a natural number;
those of a real run are below 256. -/
abbrev GoString := List Nat

/-- The bytes of a source literal (all literals of the package are ASCII). -/
def lit (s : String) : GoString := s.toList.map Char.toNat

/-- Go `int` on a 64-bit platform: the representative of `x` in
`[-2^63, 2^63)`. -/
def wrapInt (x : Int) : Int := (x + 2 ^ 63) % 2 ^ 64 - 2 ^ 63

/-- Decimal digits of `n`, most significant first, pushed in front of `acc`
(the loop of `strconv.formatBits` for base 10). -/
def formatBits : Nat → Nat → GoString → GoString
  | 0, _, acc => acc
  | fuel + 1, n, acc =>
    if n < 10 then (48 + n) :: acc
    else formatBits fuel (n / 10) ((48 + n % 10) :: acc)

/-- The decimal text of a natural number. -/
def formatUint (n : Nat) : GoString := formatBits (n + 1) n []

/-- Go `strconv.Itoa`: decimal text, with a leading `-` for negative values. -/
def Itoa (i : Int) : GoString :=
  if i < 0 then 45 :: formatUint i.natAbs else formatUint i.natAbs

/-- Go `strings.HasPrefix`. -/
def HasPrefix : GoString → GoString → Bool
  | _, [] => true
  | [], _ :: _ => false
  | a :: s, b :: p => a == b && HasPrefix s p

/-- Go `strings.Contains`: `substr` occurs in `s` as a contiguous block. -/
def Contains : GoString → GoString → Bool
  | [], substr => HasPrefix [] substr
  | a :: s, substr => HasPrefix (a :: s) substr || Contains s substr

/-- Go `strings.HasSuffix`. -/
def HasSuffix (s suffix : GoString) : Bool := HasPrefix s.reverse suffix.reverse

/-- Go `strings.ReplaceAll(s, "\n", "")`: every newline byte is removed. -/
def removeNewlines (s : GoString) : GoString := s.filter (fun b => b != 10)

/-! ## `fmt.Errorf(format)` called without operands

`doPrintf` of package `fmt` with an empty operand list: text outside verbs is
copied, `%%` gives `%`, and every other verb is reported as missing, as a bad
index, or as absent.
-/

/-- Go `parsenum`: the digits at the front of `s`; `none` is the overflow exit,
which abandons the rest of the format. Returns the number, whether a digit
was seen, and the unread rest. -/
def parsenum : GoString → Nat → Bool → Option (Nat × Bool × GoString)
  | [], num, isnum => some (num, isnum, [])
  | c :: s, num, isnum =>
    if 48 ≤ c ∧ c ≤ 57 then
      if num > 1000000 then none
      else parsenum s (num * 10 + (c - 48)) true
    else some (num, isnum, c :: s)

/-- The position of the first `]` at index 1 or later of `format`. -/
def closingBracket : GoString → Nat → Option Nat
  | [], _ => none
  | c :: s, i => if i ≥ 1 ∧ c = 93 then some i else closingBracket s (i + 1)

/-- Go `parseArgNumber` on a text starting with `[`: the width of the bracket
expression and whether it is well formed. (The index itself is of no use
without operands: every index is out of range.) -/
def parseArgNumber (format : GoString) : Nat × Bool :=
  if format.length < 3 then (1, false)
  else
    match closingBracket format 0 with
    | none => (1, false)
    | some i =>
      match parsenum ((format.take i).drop 1) 0 false with
      | some (_, true, []) => (i + 1, true)
      | _ => (i + 1, false)

/-- The flags `#`, `0`, `+`, `-` and space in front of a verb. -/
def skipFlags : GoString → GoString
  | [] => []
  | c :: s =>
    if c = 35 ∨ c = 48 ∨ c = 43 ∨ c = 45 ∨ c = 32 then skipFlags s else c :: s

/-- Is `b` a UTF-8 continuation byte within `[lo, hi]`? -/
def inRange (lo hi b : Nat) : Bool := decide (lo ≤ b ∧ b ≤ hi)

/-- Go `utf8.DecodeRuneInString` followed by `writeRune`: the bytes written for
the rune at the front of `s` and the number of bytes it occupies. An invalid
or truncated encoding is one byte wide and is written as U+FFFD. -/
def decodeRune (s : GoString) : GoString × Nat :=
  let bad : GoString × Nat := ([239, 191, 189], 1)
  match s with
  | [] => (bad.1, 0)
  | b0 :: t =>
    if b0 < 128 then ([b0], 1)
    else if 194 ≤ b0 ∧ b0 ≤ 223 then
      match t with
      | b1 :: _ => if inRange 128 191 b1 then ([b0, b1], 2) else bad
      | _ => bad
    else if 224 ≤ b0 ∧ b0 ≤ 239 then
      let lo := if b0 = 224 then 160 else 128
      let hi := if b0 = 237 then 159 else 191
      match t with
      | b1 :: b2 :: _ =>
        if inRange lo hi b1 && inRange 128 191 b2 then ([b0, b1, b2], 3) else bad
      | _ => bad
    else if 240 ≤ b0 ∧ b0 ≤ 244 then
      let lo := if b0 = 240 then 144 else 128
      let hi := if b0 = 244 then 143 else 191
      match t with
      | b1 :: b2 :: b3 :: _ =>
        if inRange lo hi b1 && inRange 128 191 b2 && inRange 128 191 b3 then
          ([b0, b1, b2, b3], 4)
        else bad
      | _ => bad
    else bad

/-- The variables of `doPrintf` while it reads one verb: the text written
for the verb so far, the unread format, `afterIndex`, and `p.goodArgNum`. -/
structure Verb where
  out : GoString
  rest : GoString
  afterIndex : Bool
  good : Bool
  deriving DecidableEq, Repr

/-- Go `argNumber` with no operands: a bracket expression is skipped and makes
the argument number bad, since every index is out of range. -/
def Verb.argNumber (v : Verb) : Verb :=
  match v.rest with
  | 91 :: _ =>
    let r := parseArgNumber v.rest
    { v with rest := v.rest.drop r.1, afterIndex := r.2, good := false }
  | _ => { v with afterIndex := false }

/-- The width of a verb: `*` finds no operand, digits are skipped. -/
def Verb.width (v : Verb) : Verb :=
  match v.rest with
  | 42 :: t => { v with out := v.out ++ lit "%!(BADWIDTH)", rest := t, afterIndex := false }
  | _ =>
    match parsenum v.rest 0 false with
    | none => { v with rest := [] }
    | some (_, widPresent, t) =>
      { v with rest := t, good := v.good && !(v.afterIndex && widPresent) }

/-- The precision of a verb: a `.` followed by an index, by `*`, or by
digits. -/
def Verb.precision (v : Verb) : Verb :=
  match v.rest with
  | 46 :: t =>
    let v := Verb.argNumber { v with rest := t, good := v.good && !v.afterIndex }
    match v.rest with
    | 42 :: u => { v with out := v.out ++ lit "%!(BADPREC)", rest := u, afterIndex := false }
    | _ =>
      match parsenum v.rest 0 false with
      | none => { v with rest := [] }
      | some (_, _, u) => { v with rest := u }
  | _ => v

/-- The verb itself: what is written for it, and the unread rest. -/
def Verb.finish (v : Verb) : GoString × GoString :=
  let v := if v.afterIndex then v else v.argNumber
  match v.rest with
  | [] => (v.out ++ lit "%!(NOVERB)", [])
  | 37 :: t => (v.out ++ [37], t)
  | c :: t =>
    let r := decodeRune (c :: t)
    if v.good then (v.out ++ lit "%!" ++ r.1 ++ lit "(MISSING)", (c :: t).drop r.2)
    else (v.out ++ lit "%!" ++ r.1 ++ lit "(BADINDEX)", (c :: t).drop r.2)

/-- One verb of `doPrintf` without operands; `s` is the text after the `%`:
flags, argument index, width, precision, argument index, verb. Returns what
is written and the unread rest. -/
def doVerb (s : GoString) : GoString × GoString :=
  (Verb.argNumber ⟨[], skipFlags s, false, true⟩).width.precision.finish

/-- The loop of `doPrintf` over the format, without operands. -/
def doPrintf : Nat → GoString → GoString
  | 0, _ => []
  | fuel + 1, format =>
    let text := format.takeWhile (fun b => b != 37)
    match format.dropWhile (fun b => b != 37) with
    | [] => text
    | _ :: rest =>
      let r := doVerb rest
      text ++ r.1 ++ doPrintf fuel r.2

/-- Go `fmt.Errorf(format).Error()` for a call without operands. -/
def Errorf0 (format : GoString) : GoString := doPrintf (format.length + 1) format

/-! ## `bytes.Buffer` and `bufio.Scanner` -/

/-- A `bytes.Buffer` as its API shows it: the bytes written and not yet
read. `Write` appends, `Read` removes from the front. -/
structure Buffer where
  unread : List Nat
  deriving DecidableEq, Repr

/-- Go `(*bytes.Buffer).Write`. -/
def Buffer.Write (b : Buffer) (p : List Nat) : Buffer := ⟨b.unread ++ p⟩

/-- Go `bufio.MaxScanTokenSize`. -/
def maxTokenSize : Nat := 64 * 1024

/-- The initial buffer size of a scanner (`startBufSize`). -/
def startBufSize : Nat := 4096

/-- A `bufio.Scanner` reading from a `bytes.Buffer`: `r` is the reader,
`cap` is `len(s.buf)`, `data` is `s.buf[s.start:s.end]`, and `eof` tells that
the reader has reported `io.EOF`. -/
structure Scanner where
  r : Buffer
  cap : Nat
  start : Nat
  data : List Nat
  eof : Bool
  deriving DecidableEq, Repr

/-- Go `bufio.NewScanner`. -/
def NewScanner (r : Buffer) : Scanner := ⟨r, 0, 0, [], false⟩

/-- Go `bytes.IndexByte`. -/
def IndexByte : List Nat → Nat → Option Nat
  | [], _ => none
  | b :: s, c => if b = c then some 0 else (IndexByte s c).map (· + 1)

/-- Go `dropCR`: a trailing carriage return is dropped. -/
def dropCR (data : List Nat) : List Nat :=
  if data.getLast? = some 13 then data.dropLast else data

/-- Go `bufio.ScanLines`: the advance and the token, if there is one. -/
def ScanLines (data : List Nat) (atEOF : Bool) : Nat × Option (List Nat) :=
  if atEOF ∧ data = [] then (0, none)
  else
    match IndexByte data 10 with
    | some i => (i + 1, some (dropCR (data.take i)))
    | none => if atEOF then (data.length, some (dropCR data)) else (0, none)

/-- The step of `Scan` that moves the data to the beginning of the buffer
when there is a lot of empty space in front or the buffer is full. -/
def Scanner.shift (s : Scanner) : Scanner :=
  if s.start > 0 ∧ (s.start + s.data.length = s.cap ∨ s.start > s.cap / 2) then
    { s with start := 0 }
  else s

/-- The step of `Scan` that doubles a full buffer, up to `maxTokenSize`. -/
def Scanner.grow (s : Scanner) : Scanner :=
  if s.start + s.data.length = s.cap then
    { s with
      cap := min (if s.cap * 2 = 0 then startBufSize else s.cap * 2) maxTokenSize,
      start := 0 }
  else s

/-- The step of `Scan` that reads from the `bytes.Buffer` into the free
space of the buffer: as many bytes as fit, or `io.EOF` when there is none. -/
def Scanner.read (s : Scanner) : Scanner :=
  match s.r.unread with
  | [] => { s with eof := true }
  | b :: bs =>
    let n := min (s.cap - (s.start + s.data.length)) (b :: bs).length
    { s with data := s.data ++ (b :: bs).take n, r := ⟨(b :: bs).drop n⟩ }

/-- Go `(*Scanner).Scan`: `some token` when it returns true, `none` when it
returns false (end of input, or a token that does not fit in the buffer).
Each turn of the loop that does not return reads at least one byte or
meets the end of the input, so `fuel` above the unread length is enough. -/
def Scanner.Scan : Nat → Scanner → Option (List Nat) × Scanner
  | 0, s => (none, s)
  | fuel + 1, s =>
    let r := if s.data ≠ [] ∨ s.eof then ScanLines s.data s.eof else (0, none)
    let s := { s with start := s.start + r.1, data := s.data.drop r.1 }
    match r.2 with
    | some token => (some token, s)
    | none =>
      if s.eof then (none, { s with start := 0, data := [] })
      else
        let s := s.shift
        if s.start + s.data.length = s.cap ∧ s.cap ≥ maxTokenSize then
          (none, s) -- ErrTooLong
        else
          Scanner.Scan fuel s.grow.read

/-! ## `vlc.go`: the error markers -/

/-- The function `checkVlcError`: the error of one line of output, if it has a marker. -/
def checkVlcError (line : GoString) : Option GoString :=
  if Contains line (lit "could not create snapshot") then some (Errorf0 line)
  else if Contains line (lit "filesystem stream error") then some (Errorf0 line)
  else if Contains line (lit "could not identify codec") then some (Errorf0 line)
  else none

/-- The loop of `checkVlcErrors` over the scanner. -/
def scanLoop : Nat → Scanner → Option GoString × Scanner
  | 0, s => (none, s)
  | fuel + 1, s =>
    match s.Scan (s.r.unread.length + 2) with
    | (none, s) => (none, s)
    | (some line, s) =>
      match checkVlcError line with
      | some err => (some (lit "vlc error: " ++ err), s)
      | none => scanLoop fuel s

/-- The function `checkVlcErrors`: the error found, and the buffer as the scanner leaves
it (what the scanner has read is gone from the buffer). -/
def checkVlcErrors (buf : Buffer) : Option GoString × Buffer :=
  let r := scanLoop (buf.unread.length + 1) (NewScanner buf)
  (r.1, r.2.r)

/-! ## The operating system -/

/-- The cause of a failed system call: its text, and whether
`errors.Is(err, os.ErrNotExist)` holds of it. -/
structure Errno where
  isNotExist : Bool
  text : GoString
  deriving DecidableEq, Repr

/-- The text of an `*fs.PathError`: operation, path, cause. -/
def PathError (op path : GoString) (e : Errno) : GoString :=
  op ++ lit " " ++ path ++ lit ": " ++ e.text

/-- The cause `ENOENT`. -/
def ENOENT : Errno := ⟨true, lit "no such file or directory"⟩

/-- The files of the file system, by path. -/
abbrev FS := GoString → Option (List Nat)

/-- What a finished subprocess leaves: its output, and the error of
`cmd.Run()` (`none` for a started process that exited with status 0). -/
structure ProcResult where
  stdout : List Nat
  stderr : List Nat
  err : Option GoString
  exitCode : Int
  deriving DecidableEq, Repr

/-- The system calls the package makes. -/
inductive Event
  | getwd
  | stat (name : GoString)
  | which
  | spawn (name : GoString) (args : List GoString)
  | readFile (name : GoString)
  | remove (name : GoString)
  deriving DecidableEq, Repr

/-- The environment of one call of `Generate`. -/
structure Env where
  /-- The result of `os.Getwd()`; an error is given by its text. -/
  getwd : GoString ⊕ GoString
  /-- The failure of `os.Stat(name)`, if it fails. -/
  stat : GoString → Option Errno
  /-- The run of `/usr/bin/which cvlc`. -/
  which : ProcResult
  /-- The run of the binary `name` with `args` on a file system: its
  result and the file system it leaves. -/
  spawn : GoString → List GoString → FS → ProcResult × FS
  /-- The text of a failure of opening or reading the existing file `name`, if
  there is one. -/
  readErr : GoString → Option GoString
  /-- A failure of removing the file `name`, if there is one. -/
  removeErr : GoString → Option Errno
  /-- The value of `time.Now().UnixMilli()`. -/
  now : Int

/-! ## `thumbnail.go` -/

/-- The package variables, the file system, and the system calls made so far. -/
structure State where
  TempWorkDir : GoString
  CVLCBinPath : GoString
  DisableHardwareAudioVideoCodec : Bool
  fs : FS
  trace : List Event

/-- The constants of type `pictureOutputFormat`, an `int`. -/
def FORMAT_JPEG : Int := 0

/-- The second constant of the enumeration. -/
def FORMAT_PNG : Int := 1

/-- The third constant of the enumeration. -/
def FORMAT_TIFF : Int := 2

/-- The struct `Video`; the field `prefix` of the source is `prefix_` here. -/
structure Video where
  Source : GoString
  OutputFormat : Int
  Time : Int
  stdOut : Buffer
  stdErr : Buffer
  prefix_ : GoString
  deriving DecidableEq, Repr

/-- The function `(Video).CommandLog`. -/
def Video.CommandLog (tf : Video) : Buffer × Buffer := (tf.stdOut, tf.stdErr)

/-- The function `(Video).workdir`. -/
def workdir (st : State) : GoString :=
  let wdir := st.TempWorkDir
  if !HasSuffix wdir (lit "/") then wdir ++ lit "/" else wdir

/-- The function `(Video).suffix`. -/
def Video.suffix (tf : Video) : GoString :=
  if tf.OutputFormat = FORMAT_JPEG then lit "jpg"
  else if tf.OutputFormat = FORMAT_PNG then lit "png"
  else if tf.OutputFormat = FORMAT_TIFF then lit "tiff"
  else []

/-- The function `(*Video).tempFileLocation`. -/
def tempFileLocation (st : State) (tf : Video) : GoString :=
  workdir st ++ tf.prefix_ ++ lit "." ++ tf.suffix

/-- Go `os.Remove`. -/
def Remove (env : Env) (st : State) (name : GoString) : Option Errno × State :=
  let st := { st with trace := st.trace ++ [Event.remove name] }
  match env.removeErr name with
  | some e => (some e, st)
  | none =>
    match st.fs name with
    | none => (some ENOENT, st)
    | some _ => (none, { st with fs := fun p => if p = name then none else st.fs p })

/-- The function `(*Video).cleanTempFile`. -/
def cleanTempFile (env : Env) (st : State) (tf : Video) : Option GoString × State :=
  match Remove env st (tempFileLocation st tf) with
  | (some e, st) =>
    if !e.isNotExist then
      (some (lit "failed to remove temp file " ++ tempFileLocation st tf ++ lit " , reason: "
        ++ PathError (lit "remove") (tempFileLocation st tf) e), st)
    else (none, st)
  | (none, st) => (none, st)

/-- Go `ioutil.ReadFile`. -/
def ReadFile (env : Env) (st : State) (name : GoString) :
    (Option (List Nat) × Option GoString) × State :=
  let st := { st with trace := st.trace ++ [Event.readFile name] }
  match st.fs name with
  | none => ((none, some (PathError (lit "open") name ENOENT)), st)
  | some b =>
    match env.readErr name with
    | some err => ((none, some err), st)
    | none => ((some b, none), st)

/-! ## `vlc.go` -/

/-- The function `(*Video).generateArguments`. -/
def generateArguments (st : State) (tf : Video) : List GoString :=
  let args : List GoString := []
  let args := args ++ [lit "file://" ++ tf.Source ++ lit ""]
  let args :=
    if st.DisableHardwareAudioVideoCodec then args ++ [lit "--avcodec-hw"] ++ [lit "none"]
    else args
  let args := args ++ [lit "--rate=99999"]
  let args := args ++ [lit "--video-filter=scene"]
  let args := args ++ [lit "--vout=dummy"]
  let args := args ++ [lit "--aout=dummy"]
  let args := args ++ [lit "--start-time=" ++ Itoa tf.Time]
  let args := args ++ [lit "--stop-time=" ++ Itoa (wrapInt (tf.Time + 1))]
  let args := args ++ [lit "--scene-format=" ++ tf.suffix]
  let args := args ++ [lit "--scene-prefix=" ++ tf.prefix_]
  let args := args ++ [lit "--scene-replace"]
  let args := args ++ [lit "--scene-path=" ++ workdir st]
  let args := args ++ [lit "vlc://quit"]
  args

/-- The function `(*Video).run`. -/
def run (env : Env) (st : State) (tf : Video) : Option GoString × Video × State :=
  let args := generateArguments st tf
  let r := env.spawn st.CVLCBinPath args st.fs
  let st := { st with fs := r.2, trace := st.trace ++ [Event.spawn st.CVLCBinPath args] }
  let tf := { tf with stdOut := tf.stdOut.Write r.1.stdout, stdErr := tf.stdErr.Write r.1.stderr }
  match r.1.err with
  | some err =>
    let c := checkVlcErrors tf.stdErr
    let tf := { tf with stdErr := c.2 }
    match c.1 with
    | some e2 => (some e2, tf, st)
    | none =>
      (some (lit "failed to start VLC reason (see (*ThumnailFile).CommandLog(): " ++ err), tf, st)
  | none =>
    let c := checkVlcErrors tf.stdOut
    (c.1, { tf with stdOut := c.2 }, st)

/-- The function `findVlc`. -/
def findVlc (env : Env) (st : State) : (GoString × Option GoString) × State :=
  let st := { st with trace := st.trace ++ [Event.which] }
  match env.which.err with
  | some err => (([], some err), st)
  | none =>
    if env.which.exitCode ≠ 0 then (([], some (lit "failed to find VLC executable")), st)
    else ((removeNewlines env.which.stdout, none), st)

/-- Go `os.Stat`, for its error. -/
def Stat (env : Env) (st : State) (name : GoString) : Option Errno × State :=
  (env.stat name, { st with trace := st.trace ++ [Event.stat name] })

/-- The function `(*Video).checkInputErrors`. -/
def checkInputErrors (env : Env) (st : State) (tf : Video) : Option GoString × State :=
  let r : Option GoString × State :=
    if st.TempWorkDir = [] then
      let st := { st with trace := st.trace ++ [Event.getwd] }
      match env.getwd with
      | .inl dir => (none, { st with TempWorkDir := dir })
      | .inr err =>
        (some (lit "TEMP_WORK_DIR was not set, os.Getwd() failed: " ++ err),
          { st with TempWorkDir := [] })
    else (none, st)
  match r with
  | (some err, st) => (some err, st)
  | (none, st) =>
    if tf.OutputFormat < FORMAT_JPEG ∨ tf.OutputFormat > FORMAT_TIFF then
      (some (lit "value " ++ Itoa tf.OutputFormat ++ lit " is invalid for (*Video).OutputFormat"),
        st)
    else if tf.Time < 0 then
      (some (lit "invalid value for (*Video).Time, must be equal to 0 or greater than 0"), st)
    else
      match Stat env st tf.Source with
      | (some e, st) =>
        if e.isNotExist then
          (some (lit "no source file found at location " ++ tf.Source ++ lit " (*Video).Source"),
            st)
        else (some (PathError (lit "stat") tf.Source e), st)
      | (none, st) =>
        if st.CVLCBinPath = [] then
          match findVlc env st with
          | ((loc, some err), st) =>
            (some (lit "VLC_BIN_PATH was not set, failed to find vlc location: " ++ err),
              { st with CVLCBinPath := loc })
          | ((loc, none), st) => (none, { st with CVLCBinPath := loc })
        else
          match Stat env st st.CVLCBinPath with
          | (some e, st) =>
            if e.isNotExist then
              (some (lit "VLC_BIN_PATH was set but not found at: " ++ st.CVLCBinPath), st)
            else (some (PathError (lit "stat") st.CVLCBinPath e), st)
          | (none, st) => (none, st)

/-- The function `(*Video).Generate`: the pair `(file, err)` it returns, the receiver and the
state it leaves. -/
def Generate (env : Env) (st : State) (tf : Video) :
    (Option (List Nat) × Option GoString) × Video × State :=
  match checkInputErrors env st tf with
  | (some err, st) => ((none, some err), tf, st)
  | (none, st) =>
    -- Create file stamp
    let tf := { tf with prefix_ := lit "vlc_conv_" ++ Itoa env.now }
    -- Run VLC
    match run env st tf with
    | (some err, tf, st) => ((none, some err), tf, st)
    | (none, tf, st) =>
      -- Read the file
      match ReadFile env st (tempFileLocation st tf) with
      | ((_, some err), st) => ((none, some err), tf, st)
      | ((file, none), st) =>
        match cleanTempFile env st tf with
        | (some err, st) => ((none, some err), tf, st)
        | (none, st) => ((file, none), tf, st)

/-! ## Notions for the statements -/

/-- The number a text of decimal digits stands for. -/
def decimalValue (ds : GoString) : Nat := ds.foldl (fun a b => a * 10 + (b - 48)) 0

/-- The text of the error for an output format outside the enumeration. -/
def formatError (v : Int) : GoString :=
  lit "value " ++ Itoa v ++ lit " is invalid for (*Video).OutputFormat"

/-- The text of the error for a negative time. -/
def timeError : GoString :=
  lit "invalid value for (*Video).Time, must be equal to 0 or greater than 0"

/-- The system calls validation makes before it looks at the request. -/
def resolveTrace (st : State) : List Event :=
  if st.TempWorkDir = [] then [Event.getwd] else []

/-! ## Lines of a text, and what the scanner yields -/

/-- The lines of a text: the runs of bytes that the newlines end or separate;
a carriage return in front of a newline is still part of the line here, and a
text that ends with a newline has no empty last line. -/
def rawLines : List Nat → List (List Nat)
  | [] => []
  | b :: s =>
    if b = 10 then [] :: rawLines s
    else
      match rawLines s with
      | [] => [[b]]
      | l :: ls => (b :: l) :: ls

/-- Does a line carry one of the three markers? -/
def isMarked (line : GoString) : Bool :=
  Contains line (lit "could not create snapshot") ||
    Contains line (lit "filesystem stream error") ||
    Contains line (lit "could not identify codec")

/-- The error of a sequence of lines, taken in order: scanning ends without
an error at a line of `maxTokenSize` bytes or more, and ends with the error
of the first line that has a marker. -/
def classify : List (List Nat) → Option GoString
  | [] => none
  | l :: ls =>
    if maxTokenSize ≤ l.length then none
    else
      match checkVlcError (dropCR l) with
      | some err => some (lit "vlc error: " ++ err)
      | none => classify ls

/-- The input a scanner has not yet turned into tokens. -/
def Scanner.pending (s : Scanner) : List Nat := s.data ++ s.r.unread

/-- The invariant of a scanner between the steps of `Scan`. -/
def Scanner.Inv (s : Scanner) : Prop :=
  s.cap ≤ maxTokenSize ∧ s.start + s.data.length ≤ s.cap ∧
    (s.eof = true → s.r.unread = [] ∧ s.start + s.data.length < s.cap)

/-- The fuel one call of `Scan` needs. -/
def Scanner.need (s : Scanner) : Nat := if s.eof then 1 else s.r.unread.length + 2

/-- What a call of `Scan` has to return on the pending input `P`: the first
line without its carriage return, unless there is no line or the line does
not fit. -/
def ScanOk (P : List Nat) (res : Option (List Nat) × Scanner) : Prop :=
  match rawLines P with
  | [] => res.1 = none
  | l :: ls =>
    if maxTokenSize ≤ l.length then res.1 = none
    else res.1 = some (dropCR l) ∧ rawLines res.2.pending = ls ∧ res.2.Inv

/-! ## A sample run -/

/-- A sample state: work directory `/tmp`, binary `/usr/bin/cvlc`, hardware
codecs disabled, an empty file system, no system call made yet. -/
def sampleState : State :=
  { TempWorkDir := lit "/tmp", CVLCBinPath := lit "/usr/bin/cvlc",
    DisableHardwareAudioVideoCodec := true, fs := fun _ => none, trace := [] }

/-- A sample request: the fifth second of `/v/clip.mp4` as JPEG. -/
def sampleVideo : Video :=
  { Source := lit "/v/clip.mp4", OutputFormat := FORMAT_JPEG, Time := 5,
    stdOut := ⟨[]⟩, stdErr := ⟨[]⟩, prefix_ := [] }

/-- A sample environment at millisecond 42: every `stat` succeeds, and the
binary leaves the result `out` and writes a three-byte frame to
`/tmp/vlc_conv_42.jpg`; removing a file fails with `removeErr`, if given. -/
def sampleEnv (out : ProcResult) (removeErr : Option Errno) : Env :=
  { getwd := .inl (lit "/tmp"), stat := fun _ => none,
    which := ⟨lit "/usr/bin/cvlc\n", [], none, 0⟩,
    spawn := fun _ _ fs =>
      (out, fun p => if p = lit "/tmp/vlc_conv_42.jpg" then some [255, 216, 255] else fs p),
    readErr := fun _ => none, removeErr := fun _ => removeErr, now := 42 }

/-! ## The stages of `Generate` -/

/-- The state `checkInputErrors` leaves. -/
def afterValidation (env : Env) (st : State) (tf : Video) : State :=
  (checkInputErrors env st tf).2

/-- The request with the file stamp `Generate` gives it. -/
def stamped (env : Env) (tf : Video) : Video :=
  { tf with prefix_ := lit "vlc_conv_" ++ Itoa env.now }

/-- The result of the subprocess `Generate` spawns once validation has passed. -/
def spawned (env : Env) (st : State) (tf : Video) : ProcResult :=
  (env.spawn (afterValidation env st tf).CVLCBinPath
    (generateArguments (afterValidation env st tf) (stamped env tf))
    (afterValidation env st tf).fs).1

/-- The captured stream `run` scans for markers: the standard error, after
everything the buffer held before, when `cmd.Run()` reports an error, and
the standard output otherwise. -/
def scannedStream (out : ProcResult) (tf : Video) : List Nat :=
  match out.err with
  | some _ => (tf.stdErr.Write out.stderr).unread
  | none => (tf.stdOut.Write out.stdout).unread

/-- The error, receiver and state after `run` in `Generate`. -/
def afterRun (env : Env) (st : State) (tf : Video) : Option GoString × Video × State :=
  run env (afterValidation env st tf) (stamped env tf)

/-- The path of the temporary file of a call of `Generate`. -/
def tempPath (env : Env) (st : State) (tf : Video) : GoString :=
  tempFileLocation (afterValidation env st tf) (stamped env tf)

/-! # Theorems -/

/-! ## Fuel of `doPrintf` -/

theorem parsenum_length : ∀ (s : GoString) (n : Nat) (b : Bool) (r : Nat × Bool × GoString),
    parsenum s n b = some r → r.2.2.length ≤ s.length := by
  intro s
  induction s with
  | nil =>
    intro n b r h
    simp [parsenum] at h
    subst h
    simp
  | cons c s ih =>
    intro n b r h
    unfold parsenum at h
    split at h
    · split at h
      · simp at h
      · have := ih _ _ _ h
        simp
        omega
    · simp at h
      subst h
      simp

theorem skipFlags_length : ∀ (s : GoString), (skipFlags s).length ≤ s.length := by
  intro s
  induction s with
  | nil => simp [skipFlags]
  | cons c s ih =>
    unfold skipFlags
    split
    · simp; omega
    · simp

theorem argNumber_length (v : Verb) : v.argNumber.rest.length ≤ v.rest.length := by
  unfold Verb.argNumber
  split
  · simp
  · simp

theorem width_length (v : Verb) : v.width.rest.length ≤ v.rest.length := by
  unfold Verb.width
  split
  · rename_i t h
    simp [h]
  · split
    · simp
    · rename_i h
      have := parsenum_length _ _ _ _ h
      simpa using this

theorem precision_length (v : Verb) : v.precision.rest.length ≤ v.rest.length := by
  unfold Verb.precision
  split
  · rename_i t h
    have h1 := argNumber_length { v with rest := t, good := v.good && !v.afterIndex }
    simp only at h1
    rw [h]
    simp only [List.length_cons]
    split
    · rename_i u hu
      rw [hu] at h1
      simp at h1 ⊢
      omega
    · split
      · simp
      · rename_i hp
        have := parsenum_length _ _ _ _ hp
        simp at this ⊢
        omega
  · exact le_refl _

theorem finish_length (v : Verb) : v.finish.2.length ≤ v.rest.length := by
  unfold Verb.finish
  have h1 : (if v.afterIndex = true then v else v.argNumber).rest.length ≤ v.rest.length := by
    split
    · exact le_refl _
    · exact argNumber_length v
  generalize (if v.afterIndex = true then v else v.argNumber) = w at h1
  simp only
  split
  · simp
  · rename_i t h
    rw [h] at h1
    simp only [List.length_cons] at h1
    show t.length ≤ _
    omega
  · rename_i c t _ h
    rw [h] at h1
    have h2 : ((c :: t).drop (decodeRune (c :: t)).2).length ≤ (c :: t).length := by
      rw [List.length_drop]
      omega
    split
    · show ((c :: t).drop (decodeRune (c :: t)).2).length ≤ _
      omega
    · show ((c :: t).drop (decodeRune (c :: t)).2).length ≤ _
      omega

theorem doVerb_length (s : GoString) : (doVerb s).2.length ≤ s.length := by
  unfold doVerb
  have h1 := finish_length (Verb.argNumber ⟨[], skipFlags s, false, true⟩).width.precision
  have h2 := precision_length (Verb.argNumber ⟨[], skipFlags s, false, true⟩).width
  have h3 := width_length (Verb.argNumber ⟨[], skipFlags s, false, true⟩)
  have h4 := argNumber_length ⟨[], skipFlags s, false, true⟩
  have h5 := skipFlags_length s
  simp only at h4
  omega

theorem doPrintf_fuel_irrelevant : ∀ (fuel1 fuel2 : Nat) (format : GoString),
    format.length < fuel1 → format.length < fuel2 → doPrintf fuel1 format = doPrintf fuel2 format := by
  intro fuel1
  induction fuel1 with
  | zero => intro _ _ h; omega
  | succ fuel1 ih =>
    intro fuel2 format h1 h2
    cases fuel2 with
    | zero => omega
    | succ fuel2 =>
      rw [doPrintf, doPrintf]
      rcases hd : format.dropWhile (fun b => b != 37) with _ | ⟨c, rest⟩
      · rfl
      · simp only
        have hlen : (c :: rest).length ≤ format.length := by
          rw [← hd]
          exact (List.dropWhile_sublist _).length_le
        have hv := doVerb_length rest
        simp at hlen
        rw [ih fuel2 (doVerb rest).2 (by omega) (by omega)]

/-- The fuel `Errorf0` gives to `doPrintf` is enough: more fuel does not change
the text. -/
theorem Errorf0_fuel (format : GoString) (fuel : Nat) (h : format.length < fuel) :
    doPrintf fuel format = Errorf0 format :=
  doPrintf_fuel_irrelevant fuel (format.length + 1) format h (by omega)

/-! ## Decimal text -/

theorem formatBits_spec (fuel : Nat) : ∀ (n : Nat) (acc : GoString), n < fuel →
    ∃ ds, formatBits fuel n acc = ds ++ acc ∧ ds ≠ [] ∧ (∀ d ∈ ds, 48 ≤ d ∧ d ≤ 57) ∧
      decimalValue ds = n := by
  induction fuel with
  | zero => intro n acc h; omega
  | succ fuel ih =>
    intro n acc h
    unfold formatBits
    by_cases h10 : n < 10
    · refine ⟨[48 + n], ?_, by simp, ?_, ?_⟩
      · simp [h10]
      · intro d hd
        simp at hd
        omega
      · simp [decimalValue]
    · have hlt : n / 10 < fuel := by omega
      obtain ⟨ds, h1, h2, h3, h4⟩ := ih (n / 10) ((48 + n % 10) :: acc) hlt
      refine ⟨ds ++ [48 + n % 10], ?_, by simp, ?_, ?_⟩
      · simp [h10, h1]
      · intro d hd
        rcases List.mem_append.mp hd with hd | hd
        · exact h3 d hd
        · simp at hd
          omega
      · have : decimalValue (ds ++ [48 + n % 10]) = decimalValue ds * 10 + n % 10 := by
          simp [decimalValue, List.foldl_append]
        rw [this, h4]
        omega

theorem formatUint_spec (n : Nat) :
    formatUint n ≠ [] ∧ (∀ d ∈ formatUint n, 48 ≤ d ∧ d ≤ 57) ∧ decimalValue (formatUint n) = n := by
  obtain ⟨ds, h1, h2, h3, h4⟩ := formatBits_spec (n + 1) n [] (by omega)
  have : formatUint n = ds := by simp [formatUint, h1]
  rw [this]
  exact ⟨h2, h3, h4⟩

theorem formatUint_injective {m n : Nat} (h : formatUint m = formatUint n) : m = n := by
  have h1 := (formatUint_spec m).2.2
  have h2 := (formatUint_spec n).2.2
  rw [h] at h1
  omega

theorem formatUint_head_ne (n : Nat) (t : GoString) : formatUint n ≠ 45 :: t := by
  intro h
  have := (formatUint_spec n).2.1 45 (by rw [h]; simp)
  omega

theorem Itoa_injective {i j : Int} (h : Itoa i = Itoa j) : i = j := by
  unfold Itoa at h
  by_cases hi : i < 0 <;> by_cases hj : j < 0 <;> simp only [hi, hj, if_true, if_false] at h
  · have := formatUint_injective (List.cons_injective h)
    omega
  · exact absurd h.symm (formatUint_head_ne _ _)
  · exact absurd h (formatUint_head_ne _ _)
  · have := formatUint_injective h
    omega

theorem Itoa_bytes (i : Int) : ∀ d ∈ Itoa i, d = 45 ∨ (48 ≤ d ∧ d ≤ 57) := by
  intro d hd
  unfold Itoa at hd
  split at hd
  · rcases List.mem_cons.mp hd with hd | hd
    · exact Or.inl hd
    · exact Or.inr ((formatUint_spec _).2.1 d hd)
  · exact Or.inr ((formatUint_spec _).2.1 d hd)

theorem Itoa_no_dot (i : Int) : 46 ∉ Itoa i := by
  intro h
  have := Itoa_bytes i 46 h
  omega

theorem append_sep_cancel {x : Nat} : ∀ {a c b d : GoString}, x ∉ a → x ∉ c →
    a ++ x :: b = c ++ x :: d → a = c := by
  intro a
  induction a with
  | nil =>
    intro c b d _ hc h
    cases c with
    | nil => rfl
    | cons y c =>
      simp at h
      simp at hc
      exact absurd h.1 hc.1
  | cons y a ih =>
    intro c b d ha hc h
    cases c with
    | nil =>
      simp at h
      simp at ha
      exact absurd h.1.symm ha.1
    | cons z c =>
      simp at h ha hc
      rw [h.1, ih ha.2 hc.2 h.2]

/-! ## Arguments and paths -/

theorem HasSuffix_slash (w : GoString) : HasSuffix w (lit "/") = true ↔ ∃ u, w = u ++ [47] := by
  unfold HasSuffix
  have hl : (lit "/").reverse = [47] := by decide
  rw [hl]
  constructor
  · intro h
    rcases hw : w.reverse with _ | ⟨a, t⟩
    · rw [hw] at h; simp [HasPrefix] at h
    · rw [hw] at h
      simp [HasPrefix] at h
      refine ⟨t.reverse, ?_⟩
      have := congrArg List.reverse hw
      simp at this
      rw [this, h]
  · rintro ⟨u, rfl⟩
    simp [HasPrefix]

theorem workdir_slash (st : State) : ∃ u, workdir st = u ++ [47] := by
  unfold workdir
  by_cases h : HasSuffix st.TempWorkDir (lit "/") = true
  · simp only [h, Bool.not_true, Bool.false_eq_true, if_false]
    exact (HasSuffix_slash _).mp h
  · simp only [h, Bool.not_eq_true] at *
    refine ⟨st.TempWorkDir, ?_⟩
    simp [h]
    decide

/-- C4 (amended): for a request with a valid output format and a time `t` with
`0 ≤ t` and `t + 1 ≤ 2^63 - 1`, `generateArguments` returns exactly: the
`file://` reference of the source; the two arguments `--avcodec-hw`, `none` if
and only if the hardware-codec-disable flag is set; then `--rate=99999`,
`--video-filter=scene`, `--vout=dummy`, `--aout=dummy`, `--start-time=` with
the decimal text of `t`, `--stop-time=` with the decimal text of `t + 1`,
`--scene-format=` with `jpg` for `FORMAT_JPEG`, `png` for `FORMAT_PNG` and
`tiff` for `FORMAT_TIFF`, `--scene-prefix=` with the prefix, `--scene-replace`,
`--scene-path=` with `W`, and `vlc://quit`, in this order, where `W` is the
configured work directory if that ends with `/` and that directory followed by
`/` otherwise, so that `W` ends with `/`. -/
theorem generateArguments_exact (st : State) (tf : Video)
    (hfmt : tf.OutputFormat = FORMAT_JPEG ∨ tf.OutputFormat = FORMAT_PNG ∨
      tf.OutputFormat = FORMAT_TIFF)
    (ht : 0 ≤ tf.Time) (hmax : tf.Time + 1 ≤ 2 ^ 63 - 1) :
    generateArguments st tf =
      [lit "file://" ++ tf.Source] ++
      (if st.DisableHardwareAudioVideoCodec = true then [lit "--avcodec-hw", lit "none"] else []) ++
      [lit "--rate=99999", lit "--video-filter=scene", lit "--vout=dummy", lit "--aout=dummy",
        lit "--start-time=" ++ Itoa tf.Time,
        lit "--stop-time=" ++ Itoa (tf.Time + 1),
        lit "--scene-format=" ++
          (if tf.OutputFormat = FORMAT_JPEG then lit "jpg"
            else if tf.OutputFormat = FORMAT_PNG then lit "png" else lit "tiff"),
        lit "--scene-prefix=" ++ tf.prefix_,
        lit "--scene-replace",
        lit "--scene-path=" ++
          (if HasSuffix st.TempWorkDir (lit "/") = true then st.TempWorkDir
            else st.TempWorkDir ++ lit "/"),
        lit "vlc://quit"] ∧
    HasSuffix
      (if HasSuffix st.TempWorkDir (lit "/") = true then st.TempWorkDir
        else st.TempWorkDir ++ lit "/") (lit "/") = true := by
  have hw : wrapInt (tf.Time + 1) = tf.Time + 1 := by
    unfold wrapInt
    omega
  have hs : tf.suffix =
      (if tf.OutputFormat = FORMAT_JPEG then lit "jpg"
        else if tf.OutputFormat = FORMAT_PNG then lit "png" else lit "tiff") := by
    unfold Video.suffix
    rcases hfmt with h | h | h <;> simp [h, FORMAT_JPEG, FORMAT_PNG, FORMAT_TIFF]
  have hd : workdir st =
      (if HasSuffix st.TempWorkDir (lit "/") = true then st.TempWorkDir
        else st.TempWorkDir ++ lit "/") := by
    unfold workdir
    by_cases h : HasSuffix st.TempWorkDir (lit "/") = true <;> simp [h]
  refine ⟨?_, ?_⟩
  · have he : lit "" = [] := rfl
    rw [← hs, ← hd, ← hw]
    unfold generateArguments
    by_cases hf : st.DisableHardwareAudioVideoCodec = true <;> simp [hf, he]
  · rw [← hd]
    exact (HasSuffix_slash _).mpr (workdir_slash st)

/-! ## The receiver and the state through `run` and `Generate` -/

theorem run_video (env : Env) (st : State) (tf : Video) :
    (run env st tf).2.1.prefix_ = tf.prefix_ ∧ (run env st tf).2.1.OutputFormat = tf.OutputFormat := by
  unfold run
  simp only
  split
  · split <;> simp
  · simp

theorem run_state (env : Env) (st : State) (tf : Video) :
    (run env st tf).2.2 =
      { st with
        fs := (env.spawn st.CVLCBinPath (generateArguments st tf) st.fs).2,
        trace := st.trace ++ [Event.spawn st.CVLCBinPath (generateArguments st tf)] } := by
  unfold run
  simp only
  split
  · split <;> simp
  · simp

theorem tempFileLocation_congr (st st2 : State) (tf tf2 : Video)
    (h1 : st2.TempWorkDir = st.TempWorkDir) (h2 : tf2.prefix_ = tf.prefix_)
    (h3 : tf2.OutputFormat = tf.OutputFormat) :
    tempFileLocation st2 tf2 = tempFileLocation st tf := by
  simp [tempFileLocation, workdir, Video.suffix, h1, h2, h3]

theorem Generate_prefix (env : Env) (st : State) (tf : Video) (st1 : State)
    (h : checkInputErrors env st tf = (none, st1)) :
    (Generate env st tf).2.1.prefix_ = lit "vlc_conv_" ++ Itoa env.now := by
  unfold Generate
  rw [h]
  simp only
  have hp := (run_video env st1 { tf with prefix_ := lit "vlc_conv_" ++ Itoa env.now }).1
  rcases hrun : run env st1 { tf with prefix_ := lit "vlc_conv_" ++ Itoa env.now } with ⟨e, tf2, st2⟩
  rw [hrun] at hp
  simp only at hp
  cases e with
  | some err => simpa using hp
  | none =>
    simp only
    rcases hread : ReadFile env st2 (tempFileLocation st2 tf2) with ⟨⟨f, e⟩, st3⟩
    cases e with
    | some err => simpa using hp
    | none =>
      simp only
      rcases hclean : cleanTempFile env st3 tf2 with ⟨e, st4⟩
      cases e <;> simpa using hp

/-- C10: two run identifiers `"vlc_conv_" + decimal(t1)` and
`"vlc_conv_" + decimal(t2)` made from different millisecond timestamps are
different texts, and so are the temporary file paths
`workdir + runId + "." + extension` that `tempFileLocation` computes from them
in one work directory, whatever the output formats of the two requests; and
the identifier is the prefix `Generate` gives to the request once validation
has passed. -/
theorem runId_distinct (st : State) (tf1 tf2 : Video) (t1 t2 : Int) (h : t1 ≠ t2) :
    lit "vlc_conv_" ++ Itoa t1 ≠ lit "vlc_conv_" ++ Itoa t2 ∧
    tempFileLocation st { tf1 with prefix_ := lit "vlc_conv_" ++ Itoa t1 } ≠
      tempFileLocation st { tf2 with prefix_ := lit "vlc_conv_" ++ Itoa t2 } ∧
    (∀ (env : Env) (st0 st1 : State) (tf : Video),
      checkInputErrors env st0 tf = (none, st1) →
        (Generate env st0 tf).2.1.prefix_ = lit "vlc_conv_" ++ Itoa env.now) := by
  refine ⟨?_, ?_, ?_⟩
  · intro heq
    exact h (Itoa_injective (List.append_cancel_left heq))
  · intro heq
    unfold tempFileLocation at heq
    simp only [List.append_assoc] at heq
    have h1 := List.append_cancel_left (List.append_cancel_left heq)
    have hd : lit "." = [46] := by decide
    rw [hd] at h1
    exact h (Itoa_injective (append_sep_cancel (Itoa_no_dot t1) (Itoa_no_dot t2) h1))
  · intro env st0 st1 tf hv
    exact Generate_prefix env st0 tf st1 hv

/-! ## Validation -/

theorem checkInputErrors_format (env : Env) (st : State) (tf : Video)
    (hf : tf.OutputFormat < FORMAT_JPEG ∨ tf.OutputFormat > FORMAT_TIFF)
    (hw : st.TempWorkDir ≠ [] ∨ ∃ dir, env.getwd = .inl dir) :
    (checkInputErrors env st tf).1 = some (formatError tf.OutputFormat) ∧
    (checkInputErrors env st tf).2.trace = st.trace ++ resolveTrace st := by
  unfold checkInputErrors resolveTrace formatError
  by_cases h0 : st.TempWorkDir = []
  · rcases hw with hw | ⟨dir, hdir⟩
    · exact absurd h0 hw
    · simp [h0, hdir, hf]
  · simp [h0, hf]

theorem checkInputErrors_time (env : Env) (st : State) (tf : Video) (ht : tf.Time < 0) :
    (∃ err, (checkInputErrors env st tf).1 = some err) ∧
    (checkInputErrors env st tf).2.trace = st.trace ++ resolveTrace st ∧
    (¬ (tf.OutputFormat < FORMAT_JPEG ∨ tf.OutputFormat > FORMAT_TIFF) →
      (st.TempWorkDir ≠ [] ∨ ∃ dir, env.getwd = .inl dir) →
      (checkInputErrors env st tf).1 = some timeError) := by
  unfold checkInputErrors resolveTrace timeError
  by_cases h0 : st.TempWorkDir = []
  · rcases hg : env.getwd with dir | err
    · by_cases hf : tf.OutputFormat < FORMAT_JPEG ∨ tf.OutputFormat > FORMAT_TIFF
      · simp [h0, hg, hf]
      · simp [h0, hg, hf, ht]
    · simp [h0, hg]
  · by_cases hf : tf.OutputFormat < FORMAT_JPEG ∨ tf.OutputFormat > FORMAT_TIFF
    · simp [h0, hf]
    · simp [h0, hf, ht]

theorem Generate_invalid (env : Env) (st : State) (tf : Video) (err : GoString)
    (h : (checkInputErrors env st tf).1 = some err) :
    Generate env st tf = ((none, some err), tf, (checkInputErrors env st tf).2) := by
  unfold Generate
  rcases hc : checkInputErrors env st tf with ⟨e, st1⟩
  rw [hc] at h
  simp only at h
  subst h
  rfl

/-- C8: for a request whose output format is below `FORMAT_JPEG` or above
`FORMAT_TIFF`, whatever its source and time, and with the work directory
set or obtainable from the system, `checkInputErrors` fails with the error
that names the format value, and `Generate` returns that error and no bytes,
having made no system call but, when the work directory was unset, the one
for the current directory: no `stat` of the source, no lookup of the binary,
no subprocess. -/
theorem invalid_format_rejected (env : Env) (st : State) (tf : Video)
    (hf : tf.OutputFormat < FORMAT_JPEG ∨ tf.OutputFormat > FORMAT_TIFF)
    (hw : st.TempWorkDir ≠ [] ∨ ∃ dir, env.getwd = .inl dir) :
    (checkInputErrors env st tf).1 =
      some (lit "value " ++ Itoa tf.OutputFormat ++ lit " is invalid for (*Video).OutputFormat") ∧
    (Generate env st tf).1 =
      (none,
        some (lit "value " ++ Itoa tf.OutputFormat ++ lit " is invalid for (*Video).OutputFormat")) ∧
    (Generate env st tf).2.2.trace =
      st.trace ++ (if st.TempWorkDir = [] then [Event.getwd] else []) := by
  have h := checkInputErrors_format env st tf hf hw
  have hg := Generate_invalid env st tf _ h.1
  refine ⟨h.1, ?_, ?_⟩
  · rw [hg]; rfl
  · rw [hg]; exact h.2

/-- C9: for a request with a negative time, validation fails and `Generate`
returns an error and no bytes, having made no system call but, when the work
directory was unset, the one for the current directory (so no subprocess is
spawned). When the output format is valid and the work directory is set or
obtainable, the error is the one about the time, whose text differs from the
text of the format error for every value, from the text of the missing-source
error for every source, and from the text of every other `stat` failure. -/
theorem negative_time_rejected (env : Env) (st : State) (tf : Video) (ht : tf.Time < 0) :
    (∃ err, (checkInputErrors env st tf).1 = some err ∧
      (Generate env st tf).1 = (none, some err)) ∧
    (Generate env st tf).2.2.trace =
      st.trace ++ (if st.TempWorkDir = [] then [Event.getwd] else []) ∧
    (¬ (tf.OutputFormat < FORMAT_JPEG ∨ tf.OutputFormat > FORMAT_TIFF) →
      (st.TempWorkDir ≠ [] ∨ ∃ dir, env.getwd = .inl dir) →
      (Generate env st tf).1 =
        (none,
          some (lit "invalid value for (*Video).Time, must be equal to 0 or greater than 0"))) ∧
    (∀ v : Int,
      lit "invalid value for (*Video).Time, must be equal to 0 or greater than 0" ≠
        lit "value " ++ Itoa v ++ lit " is invalid for (*Video).OutputFormat") ∧
    (∀ source : GoString,
      lit "invalid value for (*Video).Time, must be equal to 0 or greater than 0" ≠
        lit "no source file found at location " ++ source ++ lit " (*Video).Source") ∧
    (∀ (source : GoString) (e : Errno),
      lit "invalid value for (*Video).Time, must be equal to 0 or greater than 0" ≠
        PathError (lit "stat") source e) := by
  obtain ⟨⟨err, herr⟩, htr, hte⟩ := checkInputErrors_time env st tf ht
  have hg := Generate_invalid env st tf err herr
  have ht0 : lit "invalid value for (*Video).Time, must be equal to 0 or greater than 0" =
      105 :: lit "nvalid value for (*Video).Time, must be equal to 0 or greater than 0" := by
    decide
  refine ⟨⟨err, herr, by rw [hg]⟩, ?_, ?_, ?_, ?_, ?_⟩
  · rw [hg]; exact htr
  · intro hf hw
    have h2 := hte hf hw
    rw [Generate_invalid env st tf _ h2]
    rfl
  · intro v
    have : lit "value " = 118 :: lit "alue " := by decide
    rw [ht0, this]
    simp
  · intro source
    have : lit "no source file found at location " =
        110 :: lit "o source file found at location " := by decide
    rw [ht0, this]
    simp
  · intro source e
    have : lit "stat" = 115 :: lit "tat" := by decide
    unfold PathError
    rw [ht0, this]
    simp

/-! ## Lines of a text, and what the scanner yields -/

theorem IndexByte_none {c : Nat} : ∀ {s : List Nat}, IndexByte s c = none ↔ c ∉ s := by
  intro s
  induction s with
  | nil => simp [IndexByte]
  | cons b s ih =>
    unfold IndexByte
    by_cases h : b = c
    · simp [h]
    · have h' : ¬ c = b := fun e => h e.symm
      simp [h, h', ih]

theorem IndexByte_some {c : Nat} : ∀ {s : List Nat} {i : Nat}, IndexByte s c = some i →
    c ∉ s.take i ∧ s = s.take i ++ c :: s.drop (i + 1) ∧ i < s.length := by
  intro s
  induction s with
  | nil => intro i h; simp [IndexByte] at h
  | cons b s ih =>
    intro i h
    unfold IndexByte at h
    by_cases hb : b = c
    · simp [hb] at h
      subst h
      simp [hb]
    · simp [hb] at h
      obtain ⟨j, hj, rfl⟩ := h
      obtain ⟨h1, h2, h3⟩ := ih hj
      have hb' : ¬ c = b := fun e => hb e.symm
      refine ⟨?_, ?_, ?_⟩
      · simp [hb', h1]
      · simp
        exact h2
      · simp
        exact h3

theorem rawLines_of_not_mem : ∀ {a : List Nat}, 10 ∉ a → a ≠ [] → rawLines a = [a] := by
  intro a
  induction a with
  | nil => intro _ h; exact absurd rfl h
  | cons b s ih =>
    intro hm _
    simp at hm
    have hb : ¬ b = 10 := fun e => hm.1 e.symm
    unfold rawLines
    simp only [hb, if_false]
    cases s with
    | nil => simp [rawLines]
    | cons c s => rw [ih hm.2 (by simp)]

theorem rawLines_append_newline : ∀ {a : List Nat} (b : List Nat), 10 ∉ a →
    rawLines (a ++ 10 :: b) = a :: rawLines b := by
  intro a
  induction a with
  | nil => intro b _; simp [rawLines]
  | cons c a ih =>
    intro b hm
    simp at hm
    have hc : ¬ c = 10 := fun e => hm.1 e.symm
    have := ih b hm.2
    simp only [List.cons_append]
    rw [rawLines]
    simp only [hc, if_false, this]

theorem rawLines_long : ∀ {a : List Nat} (b : List Nat), 10 ∉ a → a ≠ [] →
    ∃ l ls, rawLines (a ++ b) = l :: ls ∧ a.length ≤ l.length := by
  intro a
  induction a with
  | nil => intro _ _ h; exact absurd rfl h
  | cons c a ih =>
    intro b hm _
    simp at hm
    have hc : ¬ c = 10 := fun e => hm.1 e.symm
    simp only [List.cons_append]
    rw [rawLines]
    simp only [hc, if_false]
    cases a with
    | nil =>
      rcases hr : rawLines ([] ++ b) with _ | ⟨l, ls⟩
      · exact ⟨[c], [], rfl, by simp⟩
      · exact ⟨c :: l, ls, rfl, by simp⟩
    | cons d a =>
      obtain ⟨l, ls, h1, h2⟩ := ih b hm.2 (by simp)
      rw [h1]
      exact ⟨c :: l, ls, rfl, by simpa using h2⟩

theorem rawLines_length_le : ∀ (a : List Nat), (rawLines a).length ≤ a.length := by
  intro a
  induction a with
  | nil => simp [rawLines]
  | cons c a ih =>
    rw [rawLines]
    split
    · simpa using ih
    · split <;> rename_i h <;> rw [h] at ih <;> simp at ih ⊢
      omega

theorem shift_facts (s : Scanner) :
    s.shift.r = s.r ∧ s.shift.cap = s.cap ∧ s.shift.data = s.data ∧ s.shift.eof = s.eof ∧
      s.shift.start ≤ s.start ∧ (s.start + s.data.length = s.cap → s.shift.start = 0) := by
  unfold Scanner.shift
  split
  · simp
  · rename_i h
    refine ⟨rfl, rfl, rfl, rfl, le_refl _, ?_⟩
    intro hf
    by_contra h0
    exact h ⟨by omega, Or.inl hf⟩

theorem grow_facts (s : Scanner) (h1 : s.cap ≤ maxTokenSize)
    (h2 : s.start + s.data.length ≤ s.cap)
    (hnf : ¬ (s.start + s.data.length = s.cap ∧ s.cap ≥ maxTokenSize)) :
    s.grow.r = s.r ∧ s.grow.data = s.data ∧ s.grow.eof = s.eof ∧ s.grow.cap ≤ maxTokenSize ∧
      s.grow.start + s.data.length < s.grow.cap := by
  unfold Scanner.grow
  simp only [maxTokenSize, startBufSize] at *
  split
  · rename_i hf
    refine ⟨rfl, rfl, rfl, ?_, ?_⟩
    · simp
    · simp only
      split <;> omega
  · refine ⟨rfl, rfl, rfl, h1, ?_⟩
    omega

theorem read_facts (s : Scanner) (h1 : s.cap ≤ maxTokenSize)
    (h2 : s.start + s.data.length < s.cap) (he : s.eof = false) :
    s.read.Inv ∧ s.read.pending = s.pending ∧ s.read.need < s.need := by
  obtain ⟨r, cap, start, data, eof⟩ := s
  simp only at h1 h2 he
  subst he
  unfold Scanner.read
  rcases hu : r.unread with _ | ⟨b, bs⟩
  · simp only [Scanner.Inv, Scanner.pending, Scanner.need, hu]
    simp
    omega
  · simp only [Scanner.Inv, Scanner.pending, Scanner.need, hu]
    simp
    omega

theorem fill_spec (s : Scanner) (hinv : s.Inv) (he : s.eof = false)
    (hfull : ¬ (s.shift.start + s.shift.data.length = s.shift.cap ∧ s.shift.cap ≥ maxTokenSize)) :
    s.shift.grow.read.Inv ∧ s.shift.grow.read.pending = s.pending ∧
      s.shift.grow.read.need < s.need := by
  obtain ⟨h1, h2, -⟩ := hinv
  obtain ⟨f1, f2, f3, f4, f5, -⟩ := shift_facts s
  have g := grow_facts s.shift (by rw [f2]; exact h1) (by rw [f2, f3]; omega) hfull
  obtain ⟨g1, g2, g3, g4, g5⟩ := g
  have r := read_facts s.shift.grow g4 (by rw [g2]; exact g5) (by rw [g3, f4]; exact he)
  obtain ⟨r1, r2, r3⟩ := r
  refine ⟨r1, ?_, ?_⟩
  · rw [r2]
    simp [Scanner.pending, g1, g2, f1, f3]
  · have : s.shift.grow.need = s.need := by
      simp [Scanner.need, g1, g3, f1, f4]
    omega

theorem tooLong_spec (s : Scanner) (hinv : s.Inv)
    (hfull : s.shift.start + s.shift.data.length = s.shift.cap ∧ s.shift.cap ≥ maxTokenSize) :
    maxTokenSize ≤ s.data.length := by
  obtain ⟨h1, h2, -⟩ := hinv
  obtain ⟨-, f2, f3, -, f5, f6⟩ := shift_facts s
  rw [f2, f3] at hfull
  have : s.start + s.data.length = s.cap := by omega
  have := f6 this
  omega

theorem token_newline (s : Scanner) (hinv : s.Inv) (i : Nat)
    (hi : IndexByte s.data 10 = some i) :
    ScanOk s.pending
      (some (dropCR (s.data.take i)),
        { s with start := s.start + (i + 1), data := s.data.drop (i + 1) }) := by
  obtain ⟨h1, h2, h3⟩ := hinv
  obtain ⟨i1, i2, i3⟩ := IndexByte_some hi
  have hp : s.pending = s.data.take i ++ 10 :: (s.data.drop (i + 1) ++ s.r.unread) := by
    unfold Scanner.pending
    conv_lhs => rw [i2]
    simp
  have hlen : (s.data.take i).length = i := by
    rw [List.length_take]; omega
  unfold ScanOk
  rw [hp, rawLines_append_newline _ i1]
  simp only [hlen]
  have : ¬ maxTokenSize ≤ i := by omega
  simp only [this, if_false, true_and]
  refine ⟨rfl, h1, ?_, ?_⟩
  · simp only [List.length_drop]; omega
  · intro he
    simp only at he
    have := h3 he
    simp only [List.length_drop]
    exact ⟨this.1, by omega⟩

theorem token_final (s : Scanner) (hinv : s.Inv) (he : s.eof = true) (hne : s.data ≠ [])
    (hi : IndexByte s.data 10 = none) :
    ScanOk s.pending
      (some (dropCR s.data),
        { s with start := s.start + s.data.length, data := s.data.drop s.data.length }) := by
  obtain ⟨h1, h2, h3⟩ := hinv
  obtain ⟨h4, h5⟩ := h3 he
  have hp : s.pending = s.data := by
    unfold Scanner.pending
    rw [h4]; simp
  unfold ScanOk
  rw [hp, rawLines_of_not_mem (IndexByte_none.mp hi) hne]
  have : ¬ maxTokenSize ≤ s.data.length := by omega
  simp only [this, if_false, true_and]
  refine ⟨?_, h1, ?_, ?_⟩
  · simp [Scanner.pending, h4, rawLines]
  · simp; omega
  · intro _
    simp
    exact ⟨h4, by omega⟩

theorem Scan_eof_empty (fuel : Nat) (s : Scanner) (he : s.eof = true) (hd : s.data = []) :
    s.Scan (fuel + 1) = (none, { s with start := 0, data := [] }) := by
  obtain ⟨r, cap, start, data, eof⟩ := s
  simp only at he hd
  subst he hd
  rw [Scanner.Scan]
  simp [ScanLines]

theorem Scan_final (fuel : Nat) (s : Scanner) (he : s.eof = true) (hd : s.data ≠ [])
    (hi : IndexByte s.data 10 = none) :
    s.Scan (fuel + 1) =
      (some (dropCR s.data),
        { s with start := s.start + s.data.length, data := s.data.drop s.data.length }) := by
  obtain ⟨r, cap, start, data, eof⟩ := s
  simp only at he hd hi
  subst he
  rw [Scanner.Scan]
  simp [ScanLines, hd, hi]

theorem Scan_newline (fuel : Nat) (s : Scanner) (i : Nat) (hi : IndexByte s.data 10 = some i) :
    s.Scan (fuel + 1) =
      (some (dropCR (s.data.take i)),
        { s with start := s.start + (i + 1), data := s.data.drop (i + 1) }) := by
  obtain ⟨r, cap, start, data, eof⟩ := s
  simp only at hi
  have hd : data ≠ [] := by
    intro h0
    rw [h0] at hi
    simp [IndexByte] at hi
  rw [Scanner.Scan]
  simp [ScanLines, hd, hi]

theorem Scan_fill (fuel : Nat) (s : Scanner) (he : s.eof = false)
    (hi : IndexByte s.data 10 = none) :
    s.Scan (fuel + 1) =
      (if s.shift.start + s.shift.data.length = s.shift.cap ∧ s.shift.cap ≥ maxTokenSize then
        (none, s.shift)
      else Scanner.Scan fuel s.shift.grow.read) := by
  obtain ⟨r, cap, start, data, eof⟩ := s
  simp only at he hi
  subst he
  rw [Scanner.Scan]
  by_cases hd : data = []
  · subst hd
    simp
  · simp [ScanLines, hd, hi]

theorem Scan_spec : ∀ (fuel : Nat) (s : Scanner), s.Inv → s.need ≤ fuel →
    ScanOk s.pending (s.Scan fuel) := by
  intro fuel
  induction fuel with
  | zero =>
    intro s _ hn
    unfold Scanner.need at hn
    split at hn <;> omega
  | succ fuel ih =>
    intro s hinv hn
    have hfill : s.eof = false → IndexByte s.data 10 = none →
        ScanOk s.pending
          (if s.shift.start + s.shift.data.length = s.shift.cap ∧ s.shift.cap ≥ maxTokenSize then
            (none, s.shift)
          else Scanner.Scan fuel s.shift.grow.read) := by
      intro he hi
      split
      · rename_i hfull
        have hlong := tooLong_spec s hinv hfull
        have hne : s.data ≠ [] := by
          intro h0
          rw [h0] at hlong
          simp [maxTokenSize] at hlong
        obtain ⟨l, ls, hl1, hl2⟩ := rawLines_long s.r.unread (IndexByte_none.mp hi) hne
        unfold ScanOk Scanner.pending
        rw [hl1]
        have : maxTokenSize ≤ l.length := by omega
        simp [this]
      · rename_i hfull
        obtain ⟨f1, f2, f3⟩ := fill_spec s hinv he hfull
        have := ih s.shift.grow.read f1 (by omega)
        rw [f2] at this
        exact this
    by_cases he : s.eof = true
    · by_cases hd : s.data = []
      · rw [Scan_eof_empty fuel s he hd]
        have hp : s.pending = [] := by
          unfold Scanner.pending
          rw [hd, (hinv.2.2 he).1]
          rfl
        unfold ScanOk
        rw [hp]
        simp [rawLines]
      · rcases hi : IndexByte s.data 10 with _ | i
        · rw [Scan_final fuel s he hd hi]
          exact token_final s hinv he hd hi
        · rw [Scan_newline fuel s i hi]
          exact token_newline s hinv i hi
    · have he' : s.eof = false := by simpa using he
      rcases hi : IndexByte s.data 10 with _ | i
      · rw [Scan_fill fuel s he' hi]
        exact hfill he' hi
      · rw [Scan_newline fuel s i hi]
        exact token_newline s hinv i hi

theorem scanLoop_spec : ∀ (fuel : Nat) (s : Scanner), s.Inv →
    (rawLines s.pending).length < fuel → (scanLoop fuel s).1 = classify (rawLines s.pending) := by
  intro fuel
  induction fuel with
  | zero => intro s _ h; omega
  | succ fuel ih =>
    intro s hinv hlen
    have hneed : s.need ≤ s.r.unread.length + 2 := by
      unfold Scanner.need
      split <;> omega
    have h := Scan_spec (s.r.unread.length + 2) s hinv hneed
    rw [scanLoop]
    rcases hres : s.Scan (s.r.unread.length + 2) with ⟨tok, s'⟩
    rw [hres] at h
    unfold ScanOk at h
    rcases hl : rawLines s.pending with _ | ⟨l, ls⟩
    · rw [hl] at h
      simp only at h
      subst h
      simp [classify]
    · rw [hl] at h hlen
      simp only at h
      by_cases hlong : maxTokenSize ≤ l.length
      · simp only [hlong, if_true] at h
        subst h
        simp [classify, hlong]
      · simp only [hlong, if_false] at h
        obtain ⟨h1, h2, h3⟩ := h
        subst h1
        simp only [classify, hlong, if_false]
        rcases hc : checkVlcError (dropCR l) with _ | err
        · simp only
          have := ih s' h3 (by rw [h2]; simpa using hlen)
          rw [this, h2]
        · simp only

/-- The error `checkVlcErrors` returns is the error of the lines of the buffer,
taken in order up to the first line that does not fit in the scanner. -/
theorem checkVlcErrors_spec (buf : Buffer) :
    (checkVlcErrors buf).1 = classify (rawLines buf.unread) := by
  unfold checkVlcErrors
  have hinv : (NewScanner buf).Inv := by
    simp [NewScanner, Scanner.Inv]
  have hp : (NewScanner buf).pending = buf.unread := by
    simp [NewScanner, Scanner.pending]
  have := scanLoop_spec (buf.unread.length + 1) (NewScanner buf) hinv
    (by rw [hp]; have := rawLines_length_le buf.unread; omega)
  rw [hp] at this
  exact this

/-! ## Classification of lines -/

theorem checkVlcError_eq (line : GoString) :
    checkVlcError line = if isMarked line = true then some (Errorf0 line) else none := by
  unfold checkVlcError isMarked
  by_cases h1 : Contains line (lit "could not create snapshot") = true
  · simp [h1]
  · by_cases h2 : Contains line (lit "filesystem stream error") = true
    · simp [h1, h2]
    · by_cases h3 : Contains line (lit "could not identify codec") = true
      · simp [h1, h2, h3]
      · simp [h1, h2, h3]

theorem Errorf0_verbatim (format : GoString) (h : 37 ∉ format) : Errorf0 format = format := by
  unfold Errorf0
  rw [doPrintf]
  have h1 : format.takeWhile (fun b => b != 37) = format := by
    rw [List.takeWhile_eq_self_iff]
    intro b hb
    have : b ≠ 37 := fun e => h (e ▸ hb)
    simpa using this
  have h2 : format.dropWhile (fun b => b != 37) = [] := by
    rw [List.dropWhile_eq_nil_iff]
    intro b hb
    have : b ≠ 37 := fun e => h (e ▸ hb)
    simpa using this
  simp only [h1, h2]

theorem classify_first (pre : List (List Nat)) (line : List Nat) (post : List (List Nat))
    (hpre : ∀ l ∈ pre, l.length < maxTokenSize ∧ isMarked (dropCR l) = false)
    (hlen : line.length < maxTokenSize) (hm : isMarked (dropCR line) = true) :
    classify (pre ++ line :: post) = some (lit "vlc error: " ++ Errorf0 (dropCR line)) := by
  induction pre with
  | nil =>
    have : ¬ maxTokenSize ≤ line.length := by omega
    simp [classify, this, checkVlcError_eq, hm]
  | cons l pre ih =>
    have h1 := hpre l (by simp)
    have : ¬ maxTokenSize ≤ l.length := by omega
    simp only [List.cons_append, classify, this, if_false, checkVlcError_eq, h1.2]
    simp only [Bool.false_eq_true, if_false]
    exact ih (fun l' hl' => hpre l' (by simp [hl']))

theorem classify_clean (lines : List (List Nat))
    (h : ∀ l ∈ lines, isMarked (dropCR l) = false) : classify lines = none := by
  induction lines with
  | nil => rfl
  | cons l lines ih =>
    unfold classify
    split
    · rfl
    · simp only [checkVlcError_eq, h l (by simp), Bool.false_eq_true, if_false]
      exact ih (fun l' hl' => h l' (by simp [hl']))

theorem classify_iff (lines : List (List Nat)) (hlen : ∀ l ∈ lines, l.length < maxTokenSize) :
    (∃ err, classify lines = some err) ↔ ∃ l ∈ lines, isMarked (dropCR l) = true := by
  induction lines with
  | nil => simp [classify]
  | cons l lines ih =>
    have h1 := hlen l (by simp)
    have : ¬ maxTokenSize ≤ l.length := by omega
    have ih' := ih (fun l' hl' => hlen l' (by simp [hl']))
    simp only [classify, this, if_false, checkVlcError_eq]
    by_cases hm : isMarked (dropCR l) = true
    · simp [hm]
    · have hm' : isMarked (dropCR l) = false := by simpa using hm
      simp only [hm', Bool.false_eq_true, if_false, List.mem_cons, exists_eq_or_imp, false_or]
      exact ih'

/-! ## The stages of `Generate` -/

theorem afterRun_path (env : Env) (st : State) (tf : Video) :
    tempFileLocation (afterRun env st tf).2.2 (afterRun env st tf).2.1 = tempPath env st tf := by
  unfold afterRun tempPath
  apply tempFileLocation_congr
  · rw [run_state]
  · exact (run_video _ _ _).1
  · exact (run_video _ _ _).2

theorem Generate_run_error (env : Env) (st : State) (tf : Video) (err : GoString)
    (hv : (checkInputErrors env st tf).1 = none) (hr : (afterRun env st tf).1 = some err) :
    Generate env st tf = ((none, some err), (afterRun env st tf).2.1, (afterRun env st tf).2.2) := by
  unfold afterRun afterValidation stamped at *
  unfold Generate
  rcases hc : checkInputErrors env st tf with ⟨e, st1⟩
  rw [hc] at hv hr
  simp only at hv hr
  subst hv
  simp only
  rcases hrun : run env st1 { tf with prefix_ := lit "vlc_conv_" ++ Itoa env.now } with ⟨e, tf2, st2⟩
  rw [hrun] at hr
  simp only at hr
  subst hr
  rfl

theorem Generate_run_ok (env : Env) (st : State) (tf : Video)
    (hv : (checkInputErrors env st tf).1 = none) (hr : (afterRun env st tf).1 = none) :
    Generate env st tf =
      (match ReadFile env (afterRun env st tf).2.2 (tempPath env st tf) with
      | ((_, some err), st3) => ((none, some err), (afterRun env st tf).2.1, st3)
      | ((file, none), st3) =>
        match cleanTempFile env st3 (afterRun env st tf).2.1 with
        | (some err, st4) => ((none, some err), (afterRun env st tf).2.1, st4)
        | (none, st4) => ((file, none), (afterRun env st tf).2.1, st4)) := by
  rw [← afterRun_path]
  unfold afterRun afterValidation stamped at *
  unfold Generate
  rcases hc : checkInputErrors env st tf with ⟨e, st1⟩
  rw [hc] at hv hr
  simp only at hv hr
  subst hv
  simp only
  rcases hrun : run env st1 { tf with prefix_ := lit "vlc_conv_" ++ Itoa env.now } with ⟨e, tf2, st2⟩
  rw [hrun] at hr
  simp only at hr
  subst hr
  rfl

/-! ## Classified errors of a run -/

theorem run_error (env : Env) (st : State) (tf : Video) :
    (run env st tf).1 =
      (match (env.spawn st.CVLCBinPath (generateArguments st tf) st.fs).1.err with
      | some err =>
        match classify (rawLines
          (scannedStream (env.spawn st.CVLCBinPath (generateArguments st tf) st.fs).1 tf)) with
        | some e2 => some e2
        | none =>
          some (lit "failed to start VLC reason (see (*ThumnailFile).CommandLog(): " ++ err)
      | none =>
        classify (rawLines
          (scannedStream (env.spawn st.CVLCBinPath (generateArguments st tf) st.fs).1 tf))) := by
  unfold run scannedStream
  simp only
  rcases he : (env.spawn st.CVLCBinPath (generateArguments st tf) st.fs).1.err with _ | err
  · simp only
    rw [checkVlcErrors_spec]
  · simp only
    rw [← checkVlcErrors_spec]
    split <;> rename_i h <;> simp [h]

theorem mem_of_mem_dropCR {x : Nat} {l : List Nat} (h : x ∈ dropCR l) : x ∈ l := by
  unfold dropCR at h
  split at h
  · exact List.mem_of_mem_dropLast h
  · exact h

/-- C1 (amended): `run` scans one captured stream only, the standard error
when `cmd.Run()` reports an error and the standard output when it reports
none. If a line of that stream has one of the three markers, no line before
it has one, every line up to and including it is shorter than 65536 bytes,
and the line has no `%`, then `Generate`, once validation has passed, fails
with no bytes and the error `"vlc error: "` followed by that line (without
its carriage return). -/
theorem Generate_classified (env : Env) (st : State) (tf : Video)
    (pre : List (List Nat)) (line : List Nat) (post : List (List Nat))
    (hv : (checkInputErrors env st tf).1 = none)
    (hl : rawLines (scannedStream (spawned env st tf) (stamped env tf)) = pre ++ line :: post)
    (hpre : ∀ l ∈ pre, l.length < maxTokenSize ∧ isMarked (dropCR l) = false)
    (hlen : line.length < maxTokenSize) (hm : isMarked (dropCR line) = true)
    (hp : 37 ∉ line) :
    (Generate env st tf).1 = (none, some (lit "vlc error: " ++ dropCR line)) := by
  have hc := classify_first pre line post hpre hlen hm
  rw [Errorf0_verbatim _ (fun h => hp (mem_of_mem_dropCR h)), ← hl] at hc
  have hr : (afterRun env st tf).1 = some (lit "vlc error: " ++ dropCR line) := by
    unfold afterRun
    rw [run_error]
    unfold spawned at hc
    rw [hc]
    split <;> rfl
  rw [Generate_run_error env st tf _ hv hr]

/-! ## Reading and removing the temporary file -/

theorem ReadFile_ok (env : Env) (st : State) (name : GoString) (b : List Nat)
    (h : (ReadFile env st name).1 = (some b, none)) :
    ReadFile env st name = ((some b, none), { st with trace := st.trace ++ [Event.readFile name] }) ∧
      st.fs name = some b := by
  unfold ReadFile at *
  simp only at *
  rcases hf : st.fs name with _ | c
  · rw [hf] at h
    simp at h
  · rw [hf] at h
    simp only at h ⊢
    rcases he : env.readErr name with _ | e
    · rw [he] at h
      simp at h
      subst h
      exact ⟨rfl, rfl⟩
    · rw [he] at h
      simp at h

theorem ReadFile_error (env : Env) (st : State) (name : GoString)
    (h : (ReadFile env st name).1.2 ≠ none) :
    ∃ err, ReadFile env st name =
      ((none, some err), { st with trace := st.trace ++ [Event.readFile name] }) := by
  unfold ReadFile at *
  simp only at *
  rcases hf : st.fs name with _ | c
  · exact ⟨_, rfl⟩
  · rw [hf] at h
    simp only at h ⊢
    rcases he : env.readErr name with _ | e
    · rw [he] at h
      simp at h
    · exact ⟨_, rfl⟩

theorem cleanTempFile_eq (env : Env) (st : State) (tf : Video) :
    cleanTempFile env st tf =
      (match env.removeErr (tempFileLocation st tf) with
      | some e =>
        (if e.isNotExist = true then none
          else some (lit "failed to remove temp file " ++ tempFileLocation st tf ++
            lit " , reason: " ++ PathError (lit "remove") (tempFileLocation st tf) e),
          { st with trace := st.trace ++ [Event.remove (tempFileLocation st tf)] })
      | none =>
        (none,
          { st with
            trace := st.trace ++ [Event.remove (tempFileLocation st tf)],
            fs := fun p => if p = tempFileLocation st tf then none else st.fs p })) := by
  unfold cleanTempFile Remove
  simp only
  rcases he : env.removeErr (tempFileLocation st tf) with _ | e
  · simp only
    rcases hf : st.fs (tempFileLocation st tf) with _ | c
    · simp only [ENOENT, Bool.not_true, Bool.false_eq_true, if_false]
      congr 1
      have : (fun p => if p = tempFileLocation st tf then none else st.fs p) = st.fs := by
        funext p
        by_cases hp : p = tempFileLocation st tf
        · simp [hp, hf]
        · simp [hp]
      rw [this]
    · rfl
  · simp only
    by_cases hn : e.isNotExist = true
    · simp [hn]
    · simp only [Bool.not_eq_true] at hn
      simp [hn]
      rfl

theorem Generate_read_ok (env : Env) (st : State) (tf : Video) (b : List Nat)
    (hv : (checkInputErrors env st tf).1 = none) (hr : (afterRun env st tf).1 = none)
    (hread : (ReadFile env (afterRun env st tf).2.2 (tempPath env st tf)).1 = (some b, none)) :
    Generate env st tf =
      (match env.removeErr (tempPath env st tf) with
      | some e =>
        ((if e.isNotExist = true then (some b, none)
          else (none, some (lit "failed to remove temp file " ++ tempPath env st tf ++
            lit " , reason: " ++ PathError (lit "remove") (tempPath env st tf) e))),
          (afterRun env st tf).2.1,
          { (afterRun env st tf).2.2 with
            trace := (afterRun env st tf).2.2.trace ++
              [Event.readFile (tempPath env st tf), Event.remove (tempPath env st tf)] })
      | none =>
        ((some b, none), (afterRun env st tf).2.1,
          { (afterRun env st tf).2.2 with
            trace := (afterRun env st tf).2.2.trace ++
              [Event.readFile (tempPath env st tf), Event.remove (tempPath env st tf)],
            fs := fun p =>
              if p = tempPath env st tf then none else (afterRun env st tf).2.2.fs p })) := by
  rw [Generate_run_ok env st tf hv hr]
  obtain ⟨h1, -⟩ := ReadFile_ok env _ _ b hread
  rw [h1]
  simp only
  rw [cleanTempFile_eq]
  have hpath : tempFileLocation
      { (afterRun env st tf).2.2 with
        trace := (afterRun env st tf).2.2.trace ++ [Event.readFile (tempPath env st tf)] }
      (afterRun env st tf).2.1 = tempPath env st tf := by
    rw [← afterRun_path]
    exact tempFileLocation_congr _ _ _ _ rfl rfl rfl
  rw [hpath]
  rcases he : env.removeErr (tempPath env st tf) with _ | e
  · simp
  · by_cases hn : e.isNotExist = true
    · simp [hn]
    · simp [hn]

/-- C2 (amended): when validation passes, the run reports no error and the
temporary file is read with bytes `b`, `Generate` returns `b` and a nil error
if the file is removed or the removal fails because the file does not exist;
if the removal fails with another error, `Generate` returns no bytes and the
error `"failed to remove temp file <path> , reason: <error>"`. -/
theorem Generate_after_read (env : Env) (st : State) (tf : Video) (b : List Nat)
    (hv : (checkInputErrors env st tf).1 = none) (hr : (afterRun env st tf).1 = none)
    (hread : (ReadFile env (afterRun env st tf).2.2 (tempPath env st tf)).1 = (some b, none)) :
    (Generate env st tf).1 =
      (match env.removeErr (tempPath env st tf) with
      | none => (some b, none)
      | some e =>
        if e.isNotExist = true then (some b, none)
        else (none, some (lit "failed to remove temp file " ++ tempPath env st tf ++
          lit " , reason: " ++ PathError (lit "remove") (tempPath env st tf) e))) := by
  rw [Generate_read_ok env st tf b hv hr hread]
  rcases he : env.removeErr (tempPath env st tf) with _ | e <;> rfl

/-- C3 (amended): `Generate` attempts to remove the temporary file only after
a run without error and a successful read: then the removal of the file at
`tempFileLocation()` is its last system call, and where that removal does not
fail the file no longer exists afterwards. After a run that reports an error
(classified or not) `Generate` returns without reading or removing the file,
and after a failed read it returns without removing it; in both cases the
file system is as the subprocess left it. -/
theorem Generate_cleanup (env : Env) (st : State) (tf : Video)
    (hv : (checkInputErrors env st tf).1 = none) :
    ((afterRun env st tf).1 ≠ none →
      (Generate env st tf).2.2.trace = (afterRun env st tf).2.2.trace ∧
      (Generate env st tf).2.2.fs = (afterRun env st tf).2.2.fs) ∧
    ((afterRun env st tf).1 = none →
      (ReadFile env (afterRun env st tf).2.2 (tempPath env st tf)).1.2 ≠ none →
      (Generate env st tf).2.2.trace =
        (afterRun env st tf).2.2.trace ++ [Event.readFile (tempPath env st tf)] ∧
      (Generate env st tf).2.2.fs = (afterRun env st tf).2.2.fs) ∧
    ((afterRun env st tf).1 = none →
      ∀ b, (ReadFile env (afterRun env st tf).2.2 (tempPath env st tf)).1 = (some b, none) →
      (Generate env st tf).2.2.trace =
        (afterRun env st tf).2.2.trace ++
          [Event.readFile (tempPath env st tf), Event.remove (tempPath env st tf)] ∧
      (env.removeErr (tempPath env st tf) = none →
        (Generate env st tf).2.2.fs (tempPath env st tf) = none)) := by
  refine ⟨?_, ?_, ?_⟩
  · intro hr
    rcases he : (afterRun env st tf).1 with _ | err
    · exact absurd he hr
    · rw [Generate_run_error env st tf err hv he]
      exact ⟨rfl, rfl⟩
  · intro hr hread
    obtain ⟨err, herr⟩ := ReadFile_error env _ _ hread
    rw [Generate_run_ok env st tf hv hr, herr]
    exact ⟨rfl, rfl⟩
  · intro hr b hread
    rw [Generate_read_ok env st tf b hv hr hread]
    rcases he : env.removeErr (tempPath env st tf) with _ | e
    · simp
    · simp

/-! ## Closed instances -/

/-- C1 (counterexample): a run that exits with status 0 and prints the line
`could not create snapshot` on its standard error only makes `Generate`
succeed with the bytes of the frame; a run that exits with status 1 and
prints that line on its standard output only makes `Generate` fail with the
unclassified error, whose text does not contain the line. -/
theorem marker_in_unscanned_stream :
    rawLines (lit "could not create snapshot\n") = [lit "could not create snapshot"] ∧
    isMarked (lit "could not create snapshot") = true ∧
    (Generate (sampleEnv ⟨[], lit "could not create snapshot\n", none, 0⟩ none)
      sampleState sampleVideo).1 = (some [255, 216, 255], none) ∧
    (Generate (sampleEnv ⟨lit "could not create snapshot\n", [], some (lit "exit status 1"), 1⟩ none)
      sampleState sampleVideo).1 =
      (none,
        some (lit "failed to start VLC reason (see (*ThumnailFile).CommandLog(): exit status 1")) ∧
    Contains (lit "failed to start VLC reason (see (*ThumnailFile).CommandLog(): exit status 1")
      (lit "could not create snapshot") = false := by
  decide

/-- Witness of C1 (amended): a run that exits with status 0 and prints
`could not create snapshot` as the second line of its standard output. -/
theorem Generate_classified_witness :
    (checkInputErrors (sampleEnv ⟨lit "playing\ncould not create snapshot\r\n", [], none, 0⟩ none)
      sampleState sampleVideo).1 = none ∧
    (Generate (sampleEnv ⟨lit "playing\ncould not create snapshot\r\n", [], none, 0⟩ none)
      sampleState sampleVideo).1 =
      (none, some (lit "vlc error: " ++ dropCR (lit "could not create snapshot\r"))) :=
  ⟨by decide,
    Generate_classified _ _ _ [lit "playing"] (lit "could not create snapshot\r") []
      (by decide) (by decide) (by decide) (by decide) (by decide) (by decide)⟩

/-- C2 (counterexample): validation passes, the run reports no error, the
temporary file is read with the bytes of the frame, and its removal fails
with `permission denied`: `Generate` returns no bytes and the removal error. -/
theorem cleanup_failure_suppresses_bytes :
    (checkInputErrors (sampleEnv ⟨lit "ok\n", [], none, 0⟩ (some ⟨false, lit "permission denied"⟩))
      sampleState sampleVideo).1 = none ∧
    (afterRun (sampleEnv ⟨lit "ok\n", [], none, 0⟩ (some ⟨false, lit "permission denied"⟩))
      sampleState sampleVideo).1 = none ∧
    (ReadFile (sampleEnv ⟨lit "ok\n", [], none, 0⟩ (some ⟨false, lit "permission denied"⟩))
      (afterRun (sampleEnv ⟨lit "ok\n", [], none, 0⟩ (some ⟨false, lit "permission denied"⟩))
        sampleState sampleVideo).2.2
      (lit "/tmp/vlc_conv_42.jpg")).1 = (some [255, 216, 255], none) ∧
    (Generate (sampleEnv ⟨lit "ok\n", [], none, 0⟩ (some ⟨false, lit "permission denied"⟩))
      sampleState sampleVideo).1 =
      (none,
        some (lit ("failed to remove temp file /tmp/vlc_conv_42.jpg , reason: " ++
          "remove /tmp/vlc_conv_42.jpg: permission denied"))) := by
  decide

/-- Witness of C2 (amended): the sample run, with a removal that succeeds. -/
theorem Generate_after_read_witness :
    (Generate (sampleEnv ⟨lit "ok\n", [], none, 0⟩ none) sampleState sampleVideo).1 =
      (match (sampleEnv ⟨lit "ok\n", [], none, 0⟩ none).removeErr
          (tempPath (sampleEnv ⟨lit "ok\n", [], none, 0⟩ none) sampleState sampleVideo) with
      | none => (some [255, 216, 255], none)
      | some e =>
        if e.isNotExist = true then (some [255, 216, 255], none)
        else (none, some (lit "failed to remove temp file " ++
          tempPath (sampleEnv ⟨lit "ok\n", [], none, 0⟩ none) sampleState sampleVideo ++
          lit " , reason: " ++ PathError (lit "remove")
            (tempPath (sampleEnv ⟨lit "ok\n", [], none, 0⟩ none) sampleState sampleVideo) e))) :=
  Generate_after_read _ _ _ [255, 216, 255] (by decide) (by decide) (by decide)

/-- C3 (counterexample): the subprocess is spawned, writes the frame and exits
with status 1; removing files would succeed, yet the trace of `Generate` has
no removal of the temporary file and the file is still there afterwards. -/
theorem no_cleanup_after_run_error :
    tempPath (sampleEnv ⟨[], [], some (lit "exit status 1"), 1⟩ none) sampleState sampleVideo =
      lit "/tmp/vlc_conv_42.jpg" ∧
    (Generate (sampleEnv ⟨[], [], some (lit "exit status 1"), 1⟩ none) sampleState sampleVideo).1 =
      (none,
        some (lit "failed to start VLC reason (see (*ThumnailFile).CommandLog(): exit status 1")) ∧
    (Generate (sampleEnv ⟨[], [], some (lit "exit status 1"), 1⟩ none)
      sampleState sampleVideo).2.2.trace =
      [Event.stat (lit "/v/clip.mp4"), Event.stat (lit "/usr/bin/cvlc"),
        Event.spawn (lit "/usr/bin/cvlc")
          (generateArguments sampleState
            (stamped (sampleEnv ⟨[], [], some (lit "exit status 1"), 1⟩ none) sampleVideo))] ∧
    Event.remove (lit "/tmp/vlc_conv_42.jpg") ∉
      (Generate (sampleEnv ⟨[], [], some (lit "exit status 1"), 1⟩ none)
        sampleState sampleVideo).2.2.trace ∧
    (Generate (sampleEnv ⟨[], [], some (lit "exit status 1"), 1⟩ none)
      sampleState sampleVideo).2.2.fs (lit "/tmp/vlc_conv_42.jpg") = some [255, 216, 255] := by
  refine ⟨by decide, by decide, ?_, by decide, by decide⟩
  set_option maxRecDepth 4000 in decide

/-- Witness of C3 (amended): the sample run, with a removal that succeeds. -/
theorem Generate_cleanup_witness :
    (Generate (sampleEnv ⟨lit "ok\n", [], none, 0⟩ none) sampleState sampleVideo).2.2.trace =
      (afterRun (sampleEnv ⟨lit "ok\n", [], none, 0⟩ none) sampleState sampleVideo).2.2.trace ++
        [Event.readFile (tempPath (sampleEnv ⟨lit "ok\n", [], none, 0⟩ none) sampleState sampleVideo),
          Event.remove (tempPath (sampleEnv ⟨lit "ok\n", [], none, 0⟩ none) sampleState sampleVideo)] ∧
    (Generate (sampleEnv ⟨lit "ok\n", [], none, 0⟩ none) sampleState sampleVideo).2.2.fs
      (tempPath (sampleEnv ⟨lit "ok\n", [], none, 0⟩ none) sampleState sampleVideo) = none :=
  ⟨((Generate_cleanup _ _ _ (by decide)).2.2 (by decide) [255, 216, 255] (by decide)).1,
    ((Generate_cleanup _ _ _ (by decide)).2.2 (by decide) [255, 216, 255] (by decide)).2 rfl⟩

/-- C5 (the code at the failing input): a run that exits with status 0 and
prints `frame saved` on its standard output and `warning` on its standard
error makes `Generate` succeed, and afterwards the standard-output buffer
that `CommandLog` returns is empty: the scan for markers has read it all.
The standard-error buffer, which that run does not scan, still holds the
output. -/
theorem CommandLog_stdout_drained :
    (Generate (sampleEnv ⟨lit "frame saved\n", lit "warning\n", none, 0⟩ none)
      sampleState sampleVideo).1 = (some [255, 216, 255], none) ∧
    (Generate (sampleEnv ⟨lit "frame saved\n", lit "warning\n", none, 0⟩ none)
      sampleState sampleVideo).2.1.CommandLog = (⟨[]⟩, ⟨lit "warning\n"⟩) := by
  decide

/-- C6 (the code at the failing input): for a buffer whose only line is
`could not create snapshot 100%`, the error of `checkVlcErrors` is
`vlc error: could not create snapshot 100%!(NOVERB)`, which is not
`vlc error: ` followed by the line. -/
theorem percent_line_not_verbatim :
    rawLines (lit "could not create snapshot 100%\n") = [lit "could not create snapshot 100%"] ∧
    (checkVlcErrors ⟨lit "could not create snapshot 100%\n"⟩).1 =
      some (lit "vlc error: could not create snapshot 100%!(NOVERB)") ∧
    (checkVlcErrors ⟨lit "could not create snapshot 100%\n"⟩).1 ≠
      some (lit "vlc error: " ++ lit "could not create snapshot 100%") := by
  decide

/-- C7 (the code at the failing input): for a buffer whose first line is 65536
bytes `a` and whose second line is `could not create snapshot`,
`checkVlcErrors` returns no error. -/
theorem long_line_hides_marker :
    rawLines (List.replicate 65536 97 ++ lit "\ncould not create snapshot\n") =
      [List.replicate 65536 97, lit "could not create snapshot"] ∧
    isMarked (lit "could not create snapshot") = true ∧
    (checkVlcErrors ⟨List.replicate 65536 97 ++ lit "\ncould not create snapshot\n"⟩).1 = none := by
  have hm : 10 ∉ List.replicate 65536 97 := by
    intro h
    have := (List.mem_replicate.mp h).2
    omega
  have hl : lit "\ncould not create snapshot\n" = 10 :: lit "could not create snapshot\n" := by
    decide
  have hr : rawLines (lit "could not create snapshot\n") = [lit "could not create snapshot"] := by
    decide
  have h1 : rawLines (List.replicate 65536 97 ++ lit "\ncould not create snapshot\n") =
      [List.replicate 65536 97, lit "could not create snapshot"] := by
    rw [hl, rawLines_append_newline _ hm, hr]
  refine ⟨h1, by decide, ?_⟩
  rw [checkVlcErrors_spec, h1, classify, if_pos]
  rw [List.length_replicate]
  decide

/-- A buffer none of whose lines has a marker is clean, whatever the length of
its lines. -/
theorem checkVlcErrors_clean (buf : Buffer)
    (h : ∀ l ∈ rawLines buf.unread, isMarked (dropCR l) = false) :
    (checkVlcErrors buf).1 = none := by
  rw [checkVlcErrors_spec]
  exact classify_clean _ h

/-- Under the bound on the length of the lines that the scanner imposes,
`checkVlcErrors` returns an error if and only if some line of the buffer has
one of the three markers. -/
theorem checkVlcErrors_iff (buf : Buffer)
    (hlen : ∀ l ∈ rawLines buf.unread, l.length < maxTokenSize) :
    (∃ err, (checkVlcErrors buf).1 = some err) ↔
      ∃ l ∈ rawLines buf.unread, isMarked (dropCR l) = true := by
  rw [checkVlcErrors_spec]
  exact classify_iff _ hlen

/-- C4 (counterexample): the sample request with the time `2^63 - 1`, which
passes validation: the Go `int` sum `tf.Time + 1` wraps, and the argument is
`--stop-time=-9223372036854775808`, not `--stop-time=` with the decimal text
of `2^63`. -/
theorem stop_time_wraps :
    (checkInputErrors (sampleEnv ⟨[], [], none, 0⟩ none) sampleState
      { sampleVideo with Time := 9223372036854775807 }).1 = none ∧
    generateArguments sampleState
        { sampleVideo with Time := 9223372036854775807, prefix_ := lit "vlc_conv_42" } =
      [lit "file:///v/clip.mp4", lit "--avcodec-hw", lit "none", lit "--rate=99999",
        lit "--video-filter=scene", lit "--vout=dummy", lit "--aout=dummy",
        lit "--start-time=9223372036854775807", lit "--stop-time=-9223372036854775808",
        lit "--scene-format=jpg", lit "--scene-prefix=vlc_conv_42", lit "--scene-replace",
        lit "--scene-path=/tmp/", lit "vlc://quit"] ∧
    Itoa (9223372036854775807 + 1) = lit "9223372036854775808" ∧
    lit "--stop-time=-9223372036854775808" ≠
      lit "--stop-time=" ++ Itoa (9223372036854775807 + 1) := by
  refine ⟨by decide, by decide, by decide, by decide⟩

/-- Witness of C4 (amended): the sample request in the sample state. -/
theorem generateArguments_exact_witness :
    generateArguments sampleState { sampleVideo with prefix_ := lit "vlc_conv_42" } =
      [lit "file:///v/clip.mp4", lit "--avcodec-hw", lit "none", lit "--rate=99999",
        lit "--video-filter=scene", lit "--vout=dummy", lit "--aout=dummy",
        lit "--start-time=5", lit "--stop-time=6", lit "--scene-format=jpg",
        lit "--scene-prefix=vlc_conv_42", lit "--scene-replace", lit "--scene-path=/tmp/",
        lit "vlc://quit"] :=
  (generateArguments_exact sampleState { sampleVideo with prefix_ := lit "vlc_conv_42" }
    (Or.inl rfl) (by decide) (by decide)).1.trans (by decide)

/-- Witness of C8: the sample request with the output format 7. -/
theorem invalid_format_rejected_witness :
    (Generate (sampleEnv ⟨[], [], none, 0⟩ none) sampleState
      { sampleVideo with OutputFormat := 7 }).1 =
      (none, some (lit "value " ++ Itoa 7 ++ lit " is invalid for (*Video).OutputFormat")) ∧
    (Generate (sampleEnv ⟨[], [], none, 0⟩ none) sampleState
      { sampleVideo with OutputFormat := 7 }).2.2.trace =
      sampleState.trace ++ (if sampleState.TempWorkDir = [] then [Event.getwd] else []) :=
  (invalid_format_rejected (sampleEnv ⟨[], [], none, 0⟩ none) sampleState
    { sampleVideo with OutputFormat := 7 } (Or.inr (by decide)) (Or.inl (by decide))).2

/-- Witness of C9: the sample request with the time -1. -/
theorem negative_time_rejected_witness :
    (Generate (sampleEnv ⟨[], [], none, 0⟩ none) sampleState { sampleVideo with Time := -1 }).1 =
      (none,
        some (lit "invalid value for (*Video).Time, must be equal to 0 or greater than 0")) :=
  (negative_time_rejected (sampleEnv ⟨[], [], none, 0⟩ none) sampleState
    { sampleVideo with Time := -1 } (by decide)).2.2.1 (by decide) (Or.inl (by decide))

/-- Witness of C10: the timestamps 41 and 42, for a JPEG and a PNG request. -/
theorem runId_distinct_witness :
    lit "vlc_conv_" ++ Itoa 41 ≠ lit "vlc_conv_" ++ Itoa 42 ∧
    tempFileLocation sampleState { sampleVideo with prefix_ := lit "vlc_conv_" ++ Itoa 41 } ≠
      tempFileLocation sampleState
        { sampleVideo with OutputFormat := FORMAT_PNG, prefix_ := lit "vlc_conv_" ++ Itoa 42 } :=
  ⟨(runId_distinct sampleState sampleVideo { sampleVideo with OutputFormat := FORMAT_PNG } 41 42
      (by decide)).1,
    (runId_distinct sampleState sampleVideo { sampleVideo with OutputFormat := FORMAT_PNG } 41 42
      (by decide)).2.1⟩

end GoVlcThumbnail
